import Mathlib

/-!
# Verification of the renderama BVH / path-integrator core

A shallow embedding of the renderama renderer's core (`src/aabb.rs`,
`src/bvh.rs`, `src/world.rs`, `src/plane.rs`, `src/sphere.rs`,
`src/triangle.rs`, `src/materials.rs`, `src/pdf.rs`, `src/ray.rs`,
`src/integrator.rs`) over exact rationals.  `f32` scalars are modelled by
`ℚ`; transcendental sub-computations of the source (square roots, `atan2`,
vector normalisation) that no checked claim depends on are passed in as
explicit parameters, so every definition stays executable and the theorems
quantify over those parameters.
-/

namespace Renderama

/-- Component model of `glam::Vec3` / `nalgebra::Vector3<f32>`: three exact
rational coordinates standing for the three `f32` lanes. -/
structure Vec3 where
  x : ℚ
  y : ℚ
  z : ℚ
  deriving DecidableEq, Repr

namespace Vec3

/-- Componentwise addition (`Vec3 + Vec3`). -/
def add (a b : Vec3) : Vec3 := ⟨a.x + b.x, a.y + b.y, a.z + b.z⟩

/-- Componentwise subtraction (`Vec3 - Vec3`). -/
def sub (a b : Vec3) : Vec3 := ⟨a.x - b.x, a.y - b.y, a.z - b.z⟩

/-- Componentwise product (`Vec3 * Vec3`, as in glam). -/
def mul (a b : Vec3) : Vec3 := ⟨a.x * b.x, a.y * b.y, a.z * b.z⟩

/-- Componentwise negation. -/
def neg (a : Vec3) : Vec3 := ⟨-a.x, -a.y, -a.z⟩

instance : Add Vec3 := ⟨add⟩

instance : Sub Vec3 := ⟨sub⟩

instance : Mul Vec3 := ⟨mul⟩

instance : Neg Vec3 := ⟨neg⟩

/-- Scalar multiplication `s * v`. -/
def smul (s : ℚ) (a : Vec3) : Vec3 := ⟨s * a.x, s * a.y, s * a.z⟩

/-- Division of a vector by a scalar (`Vec3 / f32`). -/
def divScalar (a : Vec3) (s : ℚ) : Vec3 := ⟨a.x / s, a.y / s, a.z / s⟩

/-- Dot product. -/
def dot (a b : Vec3) : ℚ := a.x * b.x + a.y * b.y + a.z * b.z

/-- Cross product. -/
def cross (a b : Vec3) : Vec3 :=
  ⟨a.y * b.z - a.z * b.y, a.z * b.x - a.x * b.z, a.x * b.y - a.y * b.x⟩

/-- Embedding of `glam::Vec3::min`: componentwise minimum. -/
def cmin (a b : Vec3) : Vec3 := ⟨min a.x b.x, min a.y b.y, min a.z b.z⟩

/-- Embedding of `glam::Vec3::max`: componentwise maximum. -/
def cmax (a b : Vec3) : Vec3 := ⟨max a.x b.x, max a.y b.y, max a.z b.z⟩

/-- Embedding of `glam::Vec3::min_element`. -/
def minElement (a : Vec3) : ℚ := min a.x (min a.y a.z)

/-- Embedding of `glam::Vec3::max_element`. -/
def maxElement (a : Vec3) : ℚ := max a.x (max a.y a.z)

/-- Embedding of `glam::Vec3::reciprocal`: componentwise `1/x`.  In `f32` the reciprocal
of `0.0` is `inf`; over `ℚ` it is `0`, so every theorem below that looks at
`inverseDirection` does so only at rays whose direction has no zero
component. -/
def reciprocal (a : Vec3) : Vec3 := ⟨1 / a.x, 1 / a.y, 1 / a.z⟩

/-- Embedding of `norm_squared` of `nalgebra::Vector3`. -/
def normSquared (a : Vec3) : ℚ := a.x * a.x + a.y * a.y + a.z * a.z

/-- The zero vector (`Vec3::zero()`). -/
def zero : Vec3 := ⟨0, 0, 0⟩

/-- The all-ones vector (`Vec3::one()`). -/
def one : Vec3 := ⟨1, 1, 1⟩

/-- Componentwise `≤`, used to state AABB containment. -/
def le (a b : Vec3) : Prop := a.x ≤ b.x ∧ a.y ≤ b.y ∧ a.z ≤ b.z

instance : DecidablePred (fun p : Vec3 × Vec3 => le p.1 p.2) := by
  intro p; unfold le; infer_instance

/-- Embedding of `nalgebra`'s `PartialOrd::lt` on `Vector3<f32>`: true iff every
component of `a` is strictly less than the matching component of `b`
(nalgebra overrides `lt` with a componentwise conjunction).  `BVH::hit`
compares two hit *points* with this operator. -/
def nalgebraLt (a b : Vec3) : Bool :=
  decide (a.x < b.x) && decide (a.y < b.y) && decide (a.z < b.z)

end Vec3

/-- Embedding of `Ray` from `src/ray.rs`: origin, direction, time and the precomputed
componentwise reciprocal of the direction. -/
structure Ray where
  origin : Vec3
  direction : Vec3
  time : ℚ
  inverseDirection : Vec3
  deriving DecidableEq, Repr

/-- Embedding of `Ray::new`.  The source normalises `direction`; normalisation is
transcendental over `ℚ`, so this constructor is used only with directions
that are already unit vectors (every concrete ray below is one). -/
def Ray.make (origin direction : Vec3) (time : ℚ) : Ray :=
  { origin := origin
    direction := direction
    time := time
    inverseDirection := direction.reciprocal }

/-- Embedding of `Ray::point_at_parameter`. -/
def Ray.pointAtParameter (r : Ray) (parameter : ℚ) : Vec3 :=
  r.origin + Vec3.smul parameter r.direction

/-- Embedding of `AABB` from `src/aabb.rs`. -/
structure AABB where
  minimum : Vec3
  maximum : Vec3
  deriving DecidableEq, Repr

/-- Embedding of `AABB::surrounding_box` (`src/aabb.rs` lines 56-61): componentwise
min-of-minimums and max-of-maximums. -/
def surroundingBox (a b : AABB) : AABB :=
  { minimum := Vec3.cmin a.minimum b.minimum
    maximum := Vec3.cmax a.maximum b.maximum }

/-- Embedding of `AABB::longest_axis` (`src/aabb.rs` lines 30-40), translated exactly:
the source compares each component of `maximum - minimum` against
`min_element` (not `max_element`). -/
def longestAxis (box : AABB) : ℕ :=
  let diff := box.maximum - box.minimum
  if diff.x = diff.minElement then 0
  else if diff.y = diff.minElement then 1
  else 2

/-- Per-axis slab entry candidates of `AABB::hit`:
`t0 = (minimum - origin) * inverse_direction`. -/
def slabT0 (box : AABB) (ray : Ray) : Vec3 :=
  (box.minimum - ray.origin) * ray.inverseDirection

/-- Per-axis slab exit candidates of `AABB::hit`:
`t1 = (maximum - origin) * inverse_direction`. -/
def slabT1 (box : AABB) (ray : Ray) : Vec3 :=
  (box.maximum - ray.origin) * ray.inverseDirection

/-- Embedding of `AABB::hit` (`src/aabb.rs` lines 45-53), translated exactly: the two
interval parameters are bound as `_position_min` / `_position_max` in the
source and never read; the test is
`tmin.max_element() <= tmax.min_element()`. -/
def aabbHit (box : AABB) (ray : Ray) (_positionMin _positionMax : ℚ) : Bool :=
  let t0 := slabT0 box ray
  let t1 := slabT1 box ray
  let tmin := Vec3.cmin t0 t1
  let tmax := Vec3.cmax t1 t0
  decide (tmin.maxElement ≤ tmax.minElement)

/-- Modelled from the spec's words for claim C5 (the code is the authority;
this second definition exists only to be compared with `aabbHit`):
per-axis slab times are intersected *together with the query interval*
`[t_min, t_max]` into a running interval, and the box is reported hit only
when that interval is non-degenerate (`false once tmax <= tmin`). -/
def aabbHitSpec (box : AABB) (ray : Ray) (positionMin positionMax : ℚ) : Bool :=
  let t0 := slabT0 box ray
  let t1 := slabT1 box ray
  let lo := max positionMin (Vec3.maxElement (Vec3.cmin t0 t1))
  let hi := min positionMax (Vec3.minElement (Vec3.cmax t1 t0))
  decide (lo < hi)

/-- Embedding of `HitRecord` from `src/hitable.rs`, in the seven-field form that
`src/plane.rs`, `src/triangle.rs` and the integrator use (ray parameter,
(u,v), hit point, geometric and shading normal, material).  Materials are
identified by an index (`ℕ`): the `Arc<dyn Material>` handle only provides
identity to the claims below. -/
structure HitRecord where
  parameter : ℚ
  u : ℚ
  v : ℚ
  point : Vec3
  geometricNormal : Vec3
  shadingNormal : Vec3
  material : ℕ
  deriving DecidableEq, Repr

/-- Embedding of `Axis` from `src/plane.rs`. -/
inductive Axis where
  | XY
  | YZ
  | XZ
  deriving DecidableEq, Repr

/-- Embedding of `Plane` from `src/plane.rs`: an axis-aligned rectangle with in-plane
extents `[r0,r1] × [s0,s1]` at offset `k` along the fixed axis. -/
structure Plane where
  axis : Axis
  r0 : ℚ
  r1 : ℚ
  s0 : ℚ
  s1 : ℚ
  k : ℚ
  material : ℕ
  deriving DecidableEq, Repr

/-- Embedding of `Plane::hit` (`src/plane.rs` lines 69-150), translated case by case:
solve the single linear equation for `t`, reject `t` outside
`[position_min, position_max]`, bounds-check the two in-plane coordinates,
and return the record with the fixed basis normal (the source passes the
same `normal` for both the geometric and the shading slot). -/
def planeHit (p : Plane) (ray : Ray) (positionMin positionMax : ℚ) :
    Option HitRecord :=
  match p.axis with
  | .XY =>
    let t := (p.k - ray.origin.z) / ray.direction.z
    if t < positionMin ∨ t > positionMax then none
    else
      let x := ray.origin.x + t * ray.direction.x
      let y := ray.origin.y + t * ray.direction.y
      if x < p.r0 ∨ x > p.r1 ∨ y < p.s0 ∨ y > p.s1 then none
      else
        some ⟨t, (x - p.r0) / (p.r1 - p.r0), (y - p.s0) / (p.s1 - p.s0),
              ray.pointAtParameter t, ⟨0, 0, 1⟩, ⟨0, 0, 1⟩, p.material⟩
  | .YZ =>
    let t := (p.k - ray.origin.x) / ray.direction.x
    if t < positionMin ∨ t > positionMax then none
    else
      let y := ray.origin.y + t * ray.direction.y
      let z := ray.origin.z + t * ray.direction.z
      if y < p.r0 ∨ y > p.r1 ∨ z < p.s0 ∨ z > p.s1 then none
      else
        some ⟨t, (y - p.r0) / (p.r1 - p.r0), (z - p.s0) / (p.s1 - p.s0),
              ray.pointAtParameter t, ⟨1, 0, 0⟩, ⟨1, 0, 0⟩, p.material⟩
  | .XZ =>
    let t := (p.k - ray.origin.y) / ray.direction.y
    if t < positionMin ∨ t > positionMax then none
    else
      let x := ray.origin.x + t * ray.direction.x
      let z := ray.origin.z + t * ray.direction.z
      if x < p.r0 ∨ x > p.r1 ∨ z < p.s0 ∨ z > p.s1 then none
      else
        some ⟨t, (x - p.r0) / (p.r1 - p.r0), (z - p.s0) / (p.s1 - p.s0),
              ray.pointAtParameter t, ⟨0, 1, 0⟩, ⟨0, 1, 0⟩, p.material⟩

/-- Embedding of `Plane::bounding_box` (`src/plane.rs` lines 152-170): the rectangle's
extent padded by `0.0001` along the fixed axis. -/
def planeBoundingBox (p : Plane) : AABB :=
  match p.axis with
  | .XY => ⟨⟨p.r0, p.s0, p.k - 1/10000⟩, ⟨p.r1, p.s1, p.k + 1/10000⟩⟩
  | .YZ => ⟨⟨p.k - 1/10000, p.r0, p.s0⟩, ⟨p.k + 1/10000, p.r1, p.s1⟩⟩
  | .XZ => ⟨⟨p.r0, p.k - 1/10000, p.s0⟩, ⟨p.r1, p.k + 1/10000, p.s1⟩⟩

/-- Embedding of `Sphere` from `src/sphere.rs` (possibly moving between two centers). -/
structure Sphere where
  startCenter : Vec3
  endCenter : Vec3
  radius : ℚ
  material : ℕ
  startTime : ℚ
  endTime : ℚ
  deriving DecidableEq, Repr

/-- Embedding of `Sphere::center`. -/
def Sphere.center (s : Sphere) (time : ℚ) : Vec3 :=
  s.startCenter +
    Vec3.smul ((time - s.startTime) / (s.endTime - s.startTime))
      (s.endCenter - s.startCenter)

/-- Embedding of `Sphere::hit` (`src/sphere.rs` lines 65-96).  The source takes
`sqrt(b*b - a*c)`, which is irrational over `ℚ`, so the value of that
square root is passed in as `sqrtDisc`; likewise `get_sphere_uv` uses
`atan2`/`asin` and is passed in as `uv`.  Every claim checked below holds
for all values of these parameters.  The two roots are sorted, negative
roots dropped, and the first remaining root strictly inside
`(position_min, position_max)` is returned. -/
def sphereHit (s : Sphere) (ray : Ray) (positionMin positionMax : ℚ)
    (sqrtDisc : ℚ) (uv : Vec3 → ℚ × ℚ) : Option HitRecord :=
  let sphereCenter := ray.origin - s.center ray.time
  let a := Vec3.dot ray.direction ray.direction
  let b := Vec3.dot sphereCenter ray.direction
  let c := Vec3.dot sphereCenter sphereCenter - s.radius * s.radius
  let discriminant := b * b - a * c
  if discriminant ≥ 0 then
    let firstRoot := (-b - sqrtDisc) / a
    let secondRoot := (-b + sqrtDisc) / a
    let roots := if firstRoot ≤ secondRoot then [firstRoot, secondRoot]
                 else [secondRoot, firstRoot]
    let roots := roots.filter (fun root => decide (root > 0))
    (roots.find? (fun root =>
        decide (root > positionMin) && decide (root < positionMax))).map
      (fun root =>
        let point := ray.pointAtParameter root
        let normal := Vec3.divScalar (point - s.center ray.time) s.radius
        let p := uv normal
        ⟨root, p.1, p.2, point, normal, normal, s.material⟩)
  else none

/-- Embedding of `Triangle` from `src/triangle.rs`: three vertices and three per-vertex
normals. -/
structure Triangle where
  v0 : Vec3
  v1 : Vec3
  v2 : Vec3
  n0 : Vec3
  n1 : Vec3
  n2 : Vec3
  material : ℕ
  deriving DecidableEq, Repr

/-- Embedding of `Triangle::hit` (`src/triangle.rs` lines 86-129), Möller–Trumbore as
written in the source: `position_min` is compared against the determinant
(not against `t`), `_position_max` is never read, and the computed `t` is
returned without any range check.  `unit` stands for `glam`'s `normalize`
(transcendental over `ℚ`), applied to the two normals; no claim below
depends on it. -/
def triangleHit (tr : Triangle) (ray : Ray) (positionMin _positionMax : ℚ)
    (unit : Vec3 → Vec3) : Option HitRecord :=
  let edge1 := tr.v1 - tr.v0
  let edge2 := tr.v2 - tr.v0
  let pvec := Vec3.cross ray.direction edge2
  let determinant := Vec3.dot edge1 pvec
  if determinant < positionMin then none
  else
    let tvec := ray.origin - tr.v0
    let u := Vec3.dot tvec pvec
    if u < 0 ∨ u > determinant then none
    else
      let qvec := Vec3.cross tvec edge1
      let v := Vec3.dot ray.direction qvec
      if v < 0 ∨ u + v > determinant then none
      else
        let t := Vec3.dot edge2 qvec
        let inverseDeterminant := 1 / determinant
        let t := t * inverseDeterminant
        let u := u * inverseDeterminant
        let v := v * inverseDeterminant
        let point := Vec3.smul u tr.v0 + Vec3.smul v tr.v1 +
                     Vec3.smul (1 - u - v) tr.v2
        let geometricNormal := unit (Vec3.cross edge1 edge2)
        let shadingNormal := unit (Vec3.smul (1 - u - v) tr.n0 +
                                   Vec3.smul u tr.n1 + Vec3.smul v tr.n2)
        some ⟨t, u, v, point, geometricNormal, shadingNormal, tr.material⟩

/-- A closed tagged variant of `Box<dyn Hitable>` sufficient for the BVH
claims: leaf planes and `BVH` inner nodes (`src/bvh.rs` struct `BVH` with
`left`, `right` and the cached `bbox`). -/
inductive HObj where
  | plane : Plane → HObj
  | bvh : HObj → HObj → AABB → HObj
  deriving DecidableEq, Repr

/-- Embedding of `Hitable::bounding_box` for the two variants: a plane returns its
padded extent, a `BVH` node returns its cached `bbox`
(`src/bvh.rs` lines 109-111). -/
def HObj.boundingBox : HObj → Option AABB
  | .plane p => some (planeBoundingBox p)
  | .bvh _ _ box => some box

/-- Embedding of `Hitable::hit` for the two variants.  The `BVH` case is
`src/bvh.rs` lines 81-107, translated exactly: prune through
`self.bbox.hit`, query both children, and when both record a hit return
the left one iff `left_record.point < right_record.point` — nalgebra's
componentwise-strict `<` on the two hit *points* (the source does not
compare the ray parameters). -/
def HObj.hit : HObj → Ray → ℚ → ℚ → Option HitRecord
  | .plane p, ray, positionMin, positionMax =>
    planeHit p ray positionMin positionMax
  | .bvh left right bbox, ray, positionMin, positionMax =>
    if aabbHit bbox ray positionMin positionMax then
      match left.hit ray positionMin positionMax,
            right.hit ray positionMin positionMax with
      | some leftRecord, some rightRecord =>
        if Vec3.nalgebraLt leftRecord.point rightRecord.point then
          some leftRecord
        else some rightRecord
      | some leftRecord, none => some leftRecord
      | none, some rightRecord => some rightRecord
      | none, none => none
    else none

/-- The loop body of `World::hit` (`src/world.rs` lines 36-56): each object
is queried with the current `closed_so_far` as `position_max`; a hit
tightens `closed_so_far` to its parameter and replaces the record. -/
def worldHitLoop (ray : Ray) (positionMin : ℚ) :
    List HObj → Option HitRecord → ℚ → Option HitRecord
  | [], record, _ => record
  | object :: rest, record, closedSoFar =>
    match object.hit ray positionMin closedSoFar with
    | some hitRecord => worldHitLoop ray positionMin rest (some hitRecord)
        hitRecord.parameter
    | none => worldHitLoop ray positionMin rest record closedSoFar

/-- Embedding of `World::hit`: the brute-force linear scan over all primitives, keeping
the closest hit; returns `none` when nothing was hit. -/
def worldHit (objects : List HObj) (ray : Ray)
    (positionMin positionMax : ℚ) : Option HitRecord :=
  worldHitLoop ray positionMin objects none positionMax

/-- The sort key of `BVH::from`: the chosen coordinate of
`bounding_box(..).unwrap().minimum`.  The source `unwrap`s; the objects fed
to `bvhFrom` below always have a bounding box, so the `none` branch (the
source would panic) is never exercised. -/
def bbMinCoord (axis : Fin 3) (object : HObj) : ℚ :=
  match object.boundingBox with
  | some box =>
    match axis with
    | 0 => box.minimum.x
    | 1 => box.minimum.y
    | 2 => box.minimum.z
  | none => 0

/-- Stable insertion into a list sorted by `key` (ties keep the existing
element first), matching the stable `sort_by` used in `BVH::from`. -/
def insertByKey (key : HObj → ℚ) (object : HObj) :
    List HObj → List HObj
  | [] => [object]
  | x :: xs =>
    if key object < key x then object :: x :: xs
    else x :: insertByKey key object xs

/-- Stable sort by `key` (insertion sort; agrees with Rust's stable
`sort_by` on the total key order used here). -/
def sortByKey (key : HObj → ℚ) : List HObj → List HObj
  | [] => []
  | x :: xs => insertByKey key x (sortByKey key xs)

/-- Embedding of `BVH::new` (`src/bvh.rs` lines 16-24): a node whose cached box is the
surrounding box of the two children's boxes.  The source `unwrap`s both
boxes; `none` models the panic. -/
def bvhNew (left right : HObj) : Option HObj :=
  match left.boundingBox, right.boundingBox with
  | some leftBox, some rightBox =>
    some (.bvh left right (surroundingBox leftBox rightBox))
  | _, _ => none

/-- Embedding of `BVH::from` (`src/bvh.rs` lines 26-77) for a given random split axis.
The source sorts `world.objects` by the bounding-box minimum along the
axis, then:
* one object — both children reference it;
* two objects — one child each;
* three or more — the source splits at the midpoint and recursively builds
  two subtrees, but binds them to `let left` / `let right` *inside* the
  `else` block, shadowing the outer `left`/`right`; the shadowed values are
  dropped when the block ends, so the node actually returned is built from
  the outer `left`/`right`, which still reference `&objects[0]`.  The
  recursive calls have no effect on the result and are therefore not
  replayed here.
An empty list (the source would index `objects[0]` and panic) yields
`none`. -/
def bvhFrom (axis : Fin 3) (worldObjects : List HObj) : Option HObj :=
  let objects := sortByKey (bbMinCoord axis) worldObjects
  match objects with
  | [] => none
  | [a] => bvhNew a a
  | [a, b] => bvhNew a b
  | a :: _ :: _ :: _ => bvhNew a a

/-- Embedding of `f32::MAX`, exactly: `(2^24 - 1) * 2^104`. -/
def f32Max : ℚ := (2 ^ 24 - 1) * 2 ^ 104

/-- Embedding of `Plane::pdf_value` (`src/plane.rs` lines 172-181): shoot a probe ray
from `origin` along `direction` (the source builds it with `Ray::new`,
range `[0.001, f32::MAX]`); on a miss return density `0.0`, on a hit
return `distance_squared / (cosine * area)`.  `nrm` stands for
`direction.norm()` (irrational over `ℚ`); the zero-density claim holds for
every value of it. -/
def planePdfValue (p : Plane) (origin direction : Vec3) (nrm : ℚ) : ℚ :=
  match planeHit p (Ray.make origin direction 0) (1/1000) f32Max with
  | some hit =>
    let area := (p.r1 - p.r0) * (p.s1 - p.s0)
    let distanceSquared := hit.parameter * hit.parameter *
      Vec3.normSquared direction
    let cosine := |Vec3.dot direction hit.shadingNormal| / nrm
    distanceSquared / (cosine * area)
  | none => 0

/-- The target point sampled by `Plane::pdf_random`
(`src/plane.rs` lines 183-188) with uniform draws `u, v ∈ [0,1)`:
`(r0 + u*(r1-r0), k, s0 + v*(s1-s0))` — the middle coordinate is `k` for
*every* axis variant (the source has no `match` on `self.axis` here). -/
def planeTargetPoint (p : Plane) (u v : ℚ) : Vec3 :=
  ⟨p.r0 + u * (p.r1 - p.r0), p.k, p.s0 + v * (p.s1 - p.s0)⟩

/-- Embedding of `Plane::pdf_random`: the direction from `origin` to the sampled target
point. -/
def planePdfRandom (p : Plane) (origin : Vec3) (u v : ℚ) : Vec3 :=
  planeTargetPoint p u v - origin

/-- The surface of a `Plane`, read off the in-plane bounds checks of
`Plane::hit`: the points the plane's `hit` can ever report. -/
def onPlaneSurface (p : Plane) (pt : Vec3) : Prop :=
  match p.axis with
  | .XY => pt.z = p.k ∧ p.r0 ≤ pt.x ∧ pt.x ≤ p.r1 ∧ p.s0 ≤ pt.y ∧ pt.y ≤ p.s1
  | .YZ => pt.x = p.k ∧ p.r0 ≤ pt.y ∧ pt.y ≤ p.r1 ∧ p.s0 ≤ pt.z ∧ pt.z ≤ p.s1
  | .XZ => pt.y = p.k ∧ p.r0 ≤ pt.x ∧ pt.x ≤ p.r1 ∧ p.s0 ≤ pt.z ∧ pt.z ≤ p.s1

instance (p : Plane) (pt : Vec3) : Decidable (onPlaneSurface p pt) := by
  unfold onPlaneSurface
  match p.axis with
  | .XY => infer_instance
  | .YZ => infer_instance
  | .XZ => infer_instance

/-- The sampling-strategy tag of `ScatterRecord.pdf` (`src/pdf.rs`): only
the cosine variant is ever stored by a material, carrying the orthonormal
basis built from the shading normal. -/
inductive PDFKind where
  | cosine : Vec3 → PDFKind
  deriving DecidableEq, Repr

/-- Embedding of `ScatterRecord` from `src/materials.rs` lines 14-32. -/
structure ScatterRecord where
  specularRay : Ray
  attenuation : Vec3
  pdf : PDFKind
  specular : Bool
  deriving DecidableEq, Repr

/-- Embedding of `Light::scatter` (`src/materials.rs` lines 321-327): always `None`,
for every ray and hit (the emissive texture is unused). -/
def lightScatter (_emit : ℚ → ℚ → Vec3 → Vec3) (_ray : Ray)
    (_record : HitRecord) : Option ScatterRecord :=
  none

/-- Embedding of `Light::emitted` (`src/materials.rs` lines 329-335): the texture value
when `shading_normal · direction < 0`, black otherwise.  `emit` is the
texture function `(u, v, point) → color`. -/
def lightEmitted (emit : ℚ → ℚ → Vec3 → Vec3) (ray : Ray)
    (hit : HitRecord) : Vec3 :=
  if Vec3.dot hit.shadingNormal ray.direction < 0 then
    emit hit.u hit.v hit.point
  else Vec3.zero

/-- The roulette factor of `compute_color`
(`src/integrator.rs` line 96 / `src/ray.rs` line 170):
`max(1 - throughput.max_element(), 0.05)`. -/
def rouletteFactor (throughput : Vec3) : ℚ :=
  max (1 - throughput.maxElement) (1/20)

/-- The Russian-roulette step of `compute_color`
(`src/integrator.rs` lines 95-101 / `src/ray.rs` lines 169-175), applied
when `bounce > 3`: terminate (`none`) when the uniform draw `u` falls
below `roulette_factor`, otherwise survive with the throughput divided by
`1 - roulette_factor`. -/
def russianRoulette (bounce : ℕ) (throughput : Vec3) (u : ℚ) :
    Option Vec3 :=
  if bounce > 3 then
    if u < rouletteFactor throughput then none
    else some (Vec3.divScalar throughput (1 - rouletteFactor throughput))
  else some throughput

/-- Modelled from the spec's words for claim C3 (the code is the
authority; this second definition exists only to be compared with
`russianRoulette`): the *survival* probability is
`max(1 - max_channel(throughput), 0.05)`, the path terminates exactly when
the draw falls below the kill probability `1 - survival`, and on survival
the throughput is divided by the survival probability. -/
def russianRouletteSpec (bounce : ℕ) (throughput : Vec3) (u : ℚ) :
    Option Vec3 :=
  if bounce > 3 then
    let survival := max (1 - throughput.maxElement) (1/20)
    if u < 1 - survival then none
    else some (Vec3.divScalar throughput survival)
  else some throughput

/-- Embedding of `f32` division of a finite vector by a scalar: `none` models the
non-finite (`±inf`/NaN) result that IEEE division by `0.0` produces. -/
def fdivVec (v : Vec3) (d : ℚ) : Option Vec3 :=
  if d = 0 then none else some (Vec3.divScalar v d)

/-- The non-specular throughput update of `compute_color`
(`src/integrator.rs` line 78 / `src/ray.rs` line 151):
`throughput *= (scattering_pdf * attenuation) / pdf`, translated with the
division modelled by `fdivVec`.  The source applies this line
unconditionally — it has no branch testing `pdf` for zero — so a zero
mixture density yields `none` (a non-finite throughput), never a dropped
sample. -/
def integratorThroughputUpdate (scatteringPdf : ℚ)
    (attenuation throughput : Vec3) (pdfValue : ℚ) : Option Vec3 :=
  (fdivVec (Vec3.smul scatteringPdf attenuation) pdfValue).map
    (fun weight => throughput * weight)

/-- Concrete XY rectangle at `z = 1` spanning `[-2,2]²`, material 1. -/
def planeA : Plane := ⟨.XY, -2, 2, -2, 2, 1, 1⟩

/-- Concrete XY rectangle at `z = 2` spanning `[-2,2]²`, material 2. -/
def planeB : Plane := ⟨.XY, -2, 2, -2, 2, 2, 2⟩

/-- Unit-direction ray from the origin along `(1/3, -2/3, 2/3)`; it pierces
`planeA` at `t = 3/2` and `planeB` at `t = 3`. -/
def rayC1 : Ray := Ray.make ⟨0, 0, 0⟩ ⟨1/3, -2/3, 2/3⟩ 0

/-- The node `BVH::new(planeA, planeB)` builds: both leaves plus the
surrounding box of their bounding boxes. -/
def nodeC1 : HObj :=
  .bvh (.plane planeA) (.plane planeB)
    (surroundingBox (planeBoundingBox planeA) (planeBoundingBox planeB))

/-- Concrete XY rectangle at `z = 1` spanning `[-10,10]²`, material 1. -/
def planeP1 : Plane := ⟨.XY, -10, 10, -10, 10, 1, 1⟩

/-- Concrete XY rectangle at `z = 2` spanning `[-10,10]²`, material 2. -/
def planeP2 : Plane := ⟨.XY, -10, 10, -10, 10, 2, 2⟩

/-- Concrete XY rectangle at `z = 3` spanning `[-10,10]²`, material 3. -/
def planeP3 : Plane := ⟨.XY, -10, 10, -10, 10, 3, 3⟩

/-- Unit-direction ray from `(0,0,10)` along `(1/3, -2/3, -2/3)`, looking
down through `planeP3` (`t = 21/2`), `planeP2` (`t = 12`) and `planeP1`
(`t = 27/2`). -/
def rayC2 : Ray := Ray.make ⟨0, 0, 10⟩ ⟨1/3, -2/3, -2/3⟩ 0

/-- The node `BVH::from` actually returns on a three-object world sorted to
`[planeP1, planeP2, planeP3]`: both children are the first sorted object. -/
def nodeC2 : HObj :=
  .bvh (.plane planeP1) (.plane planeP1)
    (surroundingBox (planeBoundingBox planeP1) (planeBoundingBox planeP1))

/-- Concrete triangle in the plane `z = 5` facing the origin, material 7. -/
def triC4 : Triangle :=
  ⟨⟨-1, -1, 5⟩, ⟨-1, 3, 5⟩, ⟨3, -1, 5⟩,
   ⟨0, 0, -1⟩, ⟨0, 0, -1⟩, ⟨0, 0, -1⟩, 7⟩

/-- Unit-direction ray from the origin along `+z`; it meets `triC4` at
`t = 5`. -/
def rayC4 : Ray := Ray.make ⟨0, 0, 0⟩ ⟨0, 0, 1⟩ 0

/-- Concrete box with extents `(1, 2, 3)`: its longest axis is `z`
(index 2). -/
def boxC6 : AABB := ⟨⟨0, 0, 0⟩, ⟨1, 2, 3⟩⟩

/-- Concrete box sitting on the ray `rayC5` with slab interval `[1, 2]`. -/
def boxC5 : AABB := ⟨⟨1/3, 2/3, 2/3⟩, ⟨2/3, 4/3, 4/3⟩⟩

/-- Unit-direction ray from the origin along `(1/3, 2/3, 2/3)`. -/
def rayC5 : Ray := Ray.make ⟨0, 0, 0⟩ ⟨1/3, 2/3, 2/3⟩ 0

/-- Constant white emissive texture. -/
def constWhite : ℚ → ℚ → Vec3 → Vec3 := fun _ _ _ => ⟨1, 1, 1⟩

/-- Concrete hit record whose shading normal is `+z`. -/
def hitUpC8 : HitRecord := ⟨1/2, 0, 0, ⟨0, 0, 0⟩, ⟨0, 0, 1⟩, ⟨0, 0, 1⟩, 5⟩

/-- Unit-direction ray travelling along `+z`, i.e. along the normal of
`hitUpC8` (the back side of the light). -/
def rayUpC8 : Ray := Ray.make ⟨0, 0, -1⟩ ⟨0, 0, 1⟩ 0

/-- Concrete XZ rectangle light `[0,1] × [0,1]` at `y = 2`, material 9. -/
def planeXZw : Plane := ⟨.XZ, 0, 1, 0, 1, 2, 9⟩

/-- Concrete XY rectangle `[0,1] × [0,1]` at `z = 1/2`, material 9; the
offset `k` lies inside the second in-plane extent. -/
def planeC10 : Plane := ⟨.XY, 0, 1, 0, 1, 1/2, 9⟩

/-- Unfolding lemma for componentwise subtraction. -/
theorem Vec3.sub_def (a b : Vec3) :
    a - b = ⟨a.x - b.x, a.y - b.y, a.z - b.z⟩ := rfl

/-- Unfolding lemma for componentwise addition. -/
theorem Vec3.add_def (a b : Vec3) :
    a + b = ⟨a.x + b.x, a.y + b.y, a.z + b.z⟩ := rfl

/-- Unfolding lemma for componentwise multiplication. -/
theorem Vec3.mul_def (a b : Vec3) :
    a * b = ⟨a.x * b.x, a.y * b.y, a.z * b.z⟩ := rfl

/-- C9: for all AABBs `a` and `b`, `surrounding_box(a, b)` contains both
inputs entirely — its minimum is componentwise ≤ each input's minimum and
its maximum componentwise ≥ each input's maximum — and `surrounding_box`
is commutative and associative. -/
theorem surrounding_box_contains_comm_assoc_c9 (a b c : AABB) :
    Vec3.le (surroundingBox a b).minimum a.minimum ∧
    Vec3.le (surroundingBox a b).minimum b.minimum ∧
    Vec3.le a.maximum (surroundingBox a b).maximum ∧
    Vec3.le b.maximum (surroundingBox a b).maximum ∧
    surroundingBox a b = surroundingBox b a ∧
    surroundingBox (surroundingBox a b) c =
      surroundingBox a (surroundingBox b c) := by
  refine ⟨?_, ?_, ?_, ?_, ?_, ?_⟩
  · exact ⟨min_le_left _ _, min_le_left _ _, min_le_left _ _⟩
  · exact ⟨min_le_right _ _, min_le_right _ _, min_le_right _ _⟩
  · exact ⟨le_max_left _ _, le_max_left _ _, le_max_left _ _⟩
  · exact ⟨le_max_right _ _, le_max_right _ _, le_max_right _ _⟩
  · simp [surroundingBox, Vec3.cmin, Vec3.cmax, AABB.mk.injEq,
      Vec3.mk.injEq, min_comm, max_comm]
  · simp [surroundingBox, Vec3.cmin, Vec3.cmax, AABB.mk.injEq,
      Vec3.mk.injEq, min_assoc, max_assoc]

/-- C6 (code bug): on the box with extents `(1, 2, 3)`, `longest_axis`
returns `0` — the axis of *smallest* extent — although the extent along
axis `2` is the greatest (the source compares each component of the
extent against `min_element` instead of `max_element`). -/
theorem longest_axis_returns_shortest_c6 :
    longestAxis boxC6 = 0 ∧
    (boxC6.maximum - boxC6.minimum).maxElement =
      (boxC6.maximum - boxC6.minimum).z ∧
    (boxC6.maximum - boxC6.minimum).x <
      (boxC6.maximum - boxC6.minimum).z := by
  norm_num [longestAxis, boxC6, Vec3.sub_def, Vec3.minElement,
    Vec3.maxElement]

/-- C5 (amended): `AABB.hit` computes the per-axis slab times from the
ray's precomputed reciprocal direction and returns true iff the largest
per-axis entry time is ≤ the smallest per-axis exit time; the query
interval `[t_min, t_max]` is ignored entirely (the result is the same for
any two query intervals), and a degenerate slab interval
(`tmax = tmin`) is reported as a hit. -/
theorem aabb_hit_slab_only_c5 (box : AABB) (ray : Ray) (a b c d : ℚ) :
    aabbHit box ray a b = aabbHit box ray c d ∧
    (aabbHit box ray a b = true ↔
      Vec3.maxElement (Vec3.cmin (slabT0 box ray) (slabT1 box ray)) ≤
      Vec3.minElement (Vec3.cmax (slabT1 box ray) (slabT0 box ray))) := by
  exact ⟨rfl, by simp [aabbHit]⟩

/-- C5 (counterexample): on `boxC5`/`rayC5` the slab interval is `[1, 2]`,
disjoint from the query interval `[3, 4]`; the claimed behaviour
(`aabbHitSpec`, intersecting with the query interval) reports no hit, but
the code (`aabbHit`) reports a hit. -/
theorem aabb_hit_ignores_query_c5_cex :
    aabbHit boxC5 rayC5 3 4 = true ∧
    aabbHitSpec boxC5 rayC5 3 4 = false := by
  norm_num [aabbHit, aabbHitSpec, boxC5, rayC5, Ray.make, Vec3.reciprocal,
    slabT0, slabT1, Vec3.sub_def, Vec3.mul_def, Vec3.cmin, Vec3.cmax,
    Vec3.minElement, Vec3.maxElement]

/-- C8: the emissive `Light` material always returns `None` from
`scatter`, and `emitted` is non-zero only when the hit's normal opposes
the incoming ray direction (`normal · direction < 0`); a hit on the
opposite side yields black. -/
theorem light_scatter_emitted_c8 (emit : ℚ → ℚ → Vec3 → Vec3) (ray : Ray)
    (hit : HitRecord) :
    lightScatter emit ray hit = none ∧
    (lightEmitted emit ray hit ≠ Vec3.zero →
      Vec3.dot hit.shadingNormal ray.direction < 0) ∧
    (0 ≤ Vec3.dot hit.shadingNormal ray.direction →
      lightEmitted emit ray hit = Vec3.zero) := by
  refine ⟨rfl, ?_, ?_⟩
  · intro hne
    by_contra hnot
    exact hne (by unfold lightEmitted; rw [if_neg hnot])
  · intro hge
    unfold lightEmitted
    rw [if_neg (not_lt.mpr hge)]

/-- C8 (witness): a concrete back-side hit — ray along the normal — where
scatter is `None` and the emitted color is black. -/
theorem light_scatter_emitted_c8_witness :
    lightScatter constWhite rayUpC8 hitUpC8 = none ∧
    lightEmitted constWhite rayUpC8 hitUpC8 = Vec3.zero := by
  exact ⟨(light_scatter_emitted_c8 constWhite rayUpC8 hitUpC8).1,
    (light_scatter_emitted_c8 constWhite rayUpC8 hitUpC8).2.2
      (by norm_num [hitUpC8, rayUpC8, Ray.make, Vec3.dot])⟩

/-- C3 (amended): after bounce 3 Russian roulette is applied with *kill*
probability `max(1 - max_channel(throughput), 0.05)`: the path terminates
exactly when the uniform draw falls below that kill probability, and on
survival the throughput is divided by `1 - kill`, the survival
probability. -/
theorem russian_roulette_kill_probability_c3 (bounce : ℕ)
    (throughput : Vec3) (u : ℚ) (hb : bounce > 3) :
    (russianRoulette bounce throughput u = none ↔
      u < rouletteFactor throughput) ∧
    (¬ u < rouletteFactor throughput →
      russianRoulette bounce throughput u =
        some (Vec3.divScalar throughput (1 - rouletteFactor throughput))) := by
  unfold russianRoulette
  rw [if_pos hb]
  constructor
  · split_ifs with h <;> simp [h]
  · intro h
    rw [if_neg h]

/-- C3 (witness): at bounce 4 with throughput `(1,1,1)` the kill
probability is `0.05` and the draw `1/100` terminates the path. -/
theorem russian_roulette_kill_probability_c3_witness :
    russianRoulette 4 Vec3.one (1/100) = none := by
  exact (russian_roulette_kill_probability_c3 4 Vec3.one (1/100)
    (by norm_num)).1.mpr
    (by norm_num [rouletteFactor, Vec3.one, Vec3.maxElement])

/-- C3 (counterexample): at bounce 4 with throughput `(1,1,1)` and draw
`1/2`, the code survives and divides by `0.95` (giving `20/19` per
channel), while the claim as stated — survival probability
`max(1 - max_channel, 0.05) = 0.05`, kill probability `0.95` —
terminates the path. -/
theorem russian_roulette_c3_cex :
    russianRoulette 4 Vec3.one (1/2) = some ⟨20/19, 20/19, 20/19⟩ ∧
    russianRouletteSpec 4 Vec3.one (1/2) = none := by
  norm_num [russianRoulette, russianRouletteSpec, rouletteFactor,
    Vec3.one, Vec3.maxElement, Vec3.divScalar, Vec3.mk.injEq]

/-- C4 (amended): every hit returned by `Plane::hit` has its ray parameter
within `[t_min, t_max]`, and every hit returned by `Sphere::hit` has it
strictly inside `(t_min, t_max)` — for every value of the square-root and
(u,v) parameters; `Triangle::hit`, by contrast, gives no such guarantee
(see the counterexample). -/
theorem hit_parameter_in_range_c4 :
    (∀ (p : Plane) (ray : Ray) (positionMin positionMax : ℚ)
      (rec : HitRecord),
      planeHit p ray positionMin positionMax = some rec →
      positionMin ≤ rec.parameter ∧ rec.parameter ≤ positionMax) ∧
    (∀ (s : Sphere) (ray : Ray) (positionMin positionMax sqrtDisc : ℚ)
      (uv : Vec3 → ℚ × ℚ) (rec : HitRecord),
      sphereHit s ray positionMin positionMax sqrtDisc uv = some rec →
      positionMin < rec.parameter ∧ rec.parameter < positionMax) := by
  constructor
  · rintro ⟨ax, r0, r1, s0, s1, k, m⟩ ray a b rec h
    cases ax
    all_goals
      simp only [planeHit] at h
      split_ifs at h with h1 h2
      push_neg at h1
      cases Option.some.inj h
      exact ⟨h1.1, h1.2⟩
  · intro s ray a b sq uv rec h
    simp only [sphereHit] at h
    split_ifs at h with hd hr
    all_goals
      rw [Option.map_eq_some'] at h
      obtain ⟨root, hfind, hrec⟩ := h
      have hp := List.find?_some hfind
      simp only [Bool.and_eq_true, decide_eq_true_eq] at hp
      cases hrec
      exact ⟨hp.1, hp.2⟩

/-- C4 (witness): the plane part applied to the concrete hit of `planeA`
by `rayC1` at parameter `3/2` inside the query interval `[1/100, 100]`. -/
theorem hit_parameter_in_range_c4_witness :
    (1/100 : ℚ) ≤
      (⟨3/2, 5/8, 1/4, ⟨1/2, -1, 1⟩, ⟨0, 0, 1⟩, ⟨0, 0, 1⟩, 1⟩ :
        HitRecord).parameter ∧
    (⟨3/2, 5/8, 1/4, ⟨1/2, -1, 1⟩, ⟨0, 0, 1⟩, ⟨0, 0, 1⟩, 1⟩ :
        HitRecord).parameter ≤ 100 := by
  refine hit_parameter_in_range_c4.1 planeA rayC1 (1/100) 100 _ ?_
  norm_num [planeHit, planeA, rayC1, Ray.make, Ray.pointAtParameter,
    Vec3.smul, Vec3.add_def, Vec3.reciprocal, HitRecord.mk.injEq,
    Vec3.mk.injEq]

/-- C4 (counterexample): `Triangle::hit` on `triC4` with query interval
`[1/1000, 1]` returns a hit at parameter `5`, far outside the interval —
the source checks `position_min` only against the Möller–Trumbore
determinant and never checks `t` against either bound. -/
theorem triangle_hit_out_of_range_c4_cex :
    (triangleHit triC4 rayC4 (1/1000) 1 id).map HitRecord.parameter =
      some 5 ∧ ¬ ((5 : ℚ) ≤ 1) := by
  norm_num [triangleHit, triC4, rayC4, Ray.make, Vec3.cross, Vec3.dot,
    Vec3.sub_def, Vec3.add_def, Vec3.smul, Vec3.reciprocal]

/-- C7: the light-PDF does return density zero for a direction that cannot
hit the light (`Plane::pdf_value` returns `0.0` on a probe miss, for every
value of the norm parameter), but the integrator does *not* drop a sample
whose mixture density is zero: the throughput update divides by the
density unconditionally, so a zero denominator produces a non-finite
(`none`) throughput. -/
theorem zero_density_handling_c7 :
    (∀ (p : Plane) (origin direction : Vec3) (nrm : ℚ),
      planeHit p (Ray.make origin direction 0) (1/1000) f32Max = none →
      planePdfValue p origin direction nrm = 0) ∧
    integratorThroughputUpdate 1 Vec3.one Vec3.one 0 = none := by
  constructor
  · intro p origin direction nrm h
    simp only [planePdfValue, h]
  · rfl

/-- C7 (witness): a concrete direction pointing away from `planeA` gets
density zero, and the concrete zero-density throughput update is
non-finite rather than dropped. -/
theorem zero_density_handling_c7_witness :
    planePdfValue planeA ⟨0, 0, 0⟩ ⟨-1/3, 2/3, -2/3⟩ 1 = 0 ∧
    integratorThroughputUpdate 1 Vec3.one Vec3.one 0 = none := by
  refine ⟨zero_density_handling_c7.1 planeA ⟨0, 0, 0⟩ ⟨-1/3, 2/3, -2/3⟩ 1
    ?_, zero_density_handling_c7.2⟩
  norm_num [planeHit, planeA, Ray.make, f32Max]

/-- C10 (amended): the point sampled by `Plane::pdf_random` always carries
the offset `k` as its y-coordinate, whatever the axis variant, and the
returned direction points from the origin to that point.  Consequently an
XZ-oriented plane's actual surface is always sampled, while for an XY-
(resp. YZ-) oriented plane the sampled point lies on the surface exactly
when the sampled z- (resp. x-) coordinate coincides with `k` and `k` lies
within the second (resp. first) extent — generically it misses the
surface. -/
theorem pdf_random_y_is_k_c10 (p : Plane) (origin : Vec3) (u v : ℚ)
    (hu0 : 0 ≤ u) (hu1 : u < 1) (hv0 : 0 ≤ v) (hv1 : v < 1)
    (hr : p.r0 ≤ p.r1) (hs : p.s0 ≤ p.s1) :
    (planeTargetPoint p u v).y = p.k ∧
    planePdfRandom p origin u v = planeTargetPoint p u v - origin ∧
    (p.axis = .XZ → onPlaneSurface p (planeTargetPoint p u v)) ∧
    (p.axis = .XY → (onPlaneSurface p (planeTargetPoint p u v) ↔
      p.s0 + v * (p.s1 - p.s0) = p.k ∧ p.s0 ≤ p.k ∧ p.k ≤ p.s1)) ∧
    (p.axis = .YZ → (onPlaneSurface p (planeTargetPoint p u v) ↔
      p.r0 + u * (p.r1 - p.r0) = p.k ∧ p.r0 ≤ p.k ∧ p.k ≤ p.r1)) := by
  have hx0 : p.r0 ≤ p.r0 + u * (p.r1 - p.r0) := by
    nlinarith [mul_nonneg hu0 (sub_nonneg.mpr hr)]
  have hx1 : p.r0 + u * (p.r1 - p.r0) ≤ p.r1 := by
    nlinarith [mul_nonneg (by linarith : (0:ℚ) ≤ 1 - u)
      (sub_nonneg.mpr hr)]
  have hz0 : p.s0 ≤ p.s0 + v * (p.s1 - p.s0) := by
    nlinarith [mul_nonneg hv0 (sub_nonneg.mpr hs)]
  have hz1 : p.s0 + v * (p.s1 - p.s0) ≤ p.s1 := by
    nlinarith [mul_nonneg (by linarith : (0:ℚ) ≤ 1 - v)
      (sub_nonneg.mpr hs)]
  refine ⟨rfl, rfl, ?_, ?_, ?_⟩
  · intro hax
    simp only [onPlaneSurface, planeTargetPoint, hax]
    exact ⟨trivial, hx0, hx1, hz0, hz1⟩
  · intro hax
    simp only [onPlaneSurface, planeTargetPoint, hax]
    constructor
    · rintro ⟨h1, _, _, h4, h5⟩
      exact ⟨h1, h4, h5⟩
    · rintro ⟨h1, h4, h5⟩
      exact ⟨h1, hx0, hx1, h4, h5⟩
  · intro hax
    simp only [onPlaneSurface, planeTargetPoint, hax]
    constructor
    · rintro ⟨h1, h2, h3, _, _⟩
      exact ⟨h1, h2, h3⟩
    · rintro ⟨h1, h2, h3⟩
      exact ⟨h1, h2, h3, hz0, hz1⟩

/-- C10 (witness): on the concrete XZ light `planeXZw` with draws
`(1/2, 1/2)` the sampled point has y-coordinate `k = 2` and lies on the
light's surface. -/
theorem pdf_random_y_is_k_c10_witness :
    (planeTargetPoint planeXZw (1/2) (1/2)).y = 2 ∧
    onPlaneSurface planeXZw (planeTargetPoint planeXZw (1/2) (1/2)) := by
  have h := pdf_random_y_is_k_c10 planeXZw Vec3.zero (1/2) (1/2)
    (by norm_num) (by norm_num) (by norm_num) (by norm_num)
    (by norm_num [planeXZw]) (by norm_num [planeXZw])
  exact ⟨h.1, h.2.2.1 rfl⟩

/-- C10 (counterexample): `planeC10` is XY-oriented, yet the point its
`pdf_random` targets for the draws `(0, 1/2)` — namely `(0, 1/2, 1/2)` —
*does* lie on the plane's surface, refuting the claim that for every
XY-oriented plane the generated direction points at an off-surface
point. -/
theorem pdf_random_on_surface_c10_cex :
    planeC10.axis = Axis.XY ∧
    onPlaneSurface planeC10 (planeTargetPoint planeC10 0 (1/2)) ∧
    planePdfRandom planeC10 Vec3.zero 0 (1/2) = ⟨0, 1/2, 1/2⟩ := by
  refine ⟨rfl, ?_, ?_⟩
  · norm_num [onPlaneSurface, planeC10, planeTargetPoint]
  · norm_num [planePdfRandom, planeC10, planeTargetPoint, Vec3.zero,
      Vec3.sub_def, Vec3.mk.injEq]

/-- C1 (code bug): on the two-leaf node built by `BVH::new` from `planeA`
(hit by `rayC1` at `t = 3/2`) and `planeB` (hit at `t = 3`), both children
record a hit, but `BVH::hit` returns the hit at `t = 3` on material 2 —
the *farther* one — while the brute-force scan `World::hit` over the same
primitives returns `t = 3/2` on material 1.  The source compares the two
hit *points* with nalgebra's componentwise `<` (here
`(1/2, -1, 1) < (1, -2, 2)` is false because `-1 < -2` fails) instead of
comparing the ray parameters. -/
theorem bvh_hit_compares_points_c1 :
    bvhNew (.plane planeA) (.plane planeB) = some nodeC1 ∧
    (HObj.hit nodeC1 rayC1 (1/100) 100).map
      (fun h => (h.parameter, h.material)) = some (3, 2) ∧
    (worldHit [.plane planeA, .plane planeB] rayC1 (1/100) 100).map
      (fun h => (h.parameter, h.material)) = some (3/2, 1) := by
  refine ⟨rfl, ?_, ?_⟩
  · norm_num [HObj.hit, nodeC1, planeA, planeB, rayC1, Ray.make,
      Ray.pointAtParameter, aabbHit, slabT0, slabT1, planeBoundingBox,
      surroundingBox, planeHit, Vec3.cmin, Vec3.cmax, Vec3.minElement,
      Vec3.maxElement, Vec3.reciprocal, Vec3.sub_def, Vec3.mul_def,
      Vec3.add_def, Vec3.smul, Vec3.nalgebraLt]
  · norm_num [worldHit, worldHitLoop, HObj.hit, planeA, planeB, rayC1,
      Ray.make, Ray.pointAtParameter, planeHit, Vec3.reciprocal,
      Vec3.sub_def, Vec3.add_def, Vec3.smul]

/-- C2 (code bug): `BVH::from` on the three-plane world
`[planeP3, planeP1, planeP2]` (split axis 2) sorts the objects to
`[planeP1, planeP2, planeP3]` and then returns a node whose *both*
children are the first sorted object `planeP1` — the recursive midpoint
builds are bound to shadowed locals and dropped — so `planeP2` and
`planeP3` are lost from the tree: the resulting node reports the hit of
`planeP1` at `t = 27/2` for `rayC2` while the brute-force scan over the
three planes reports `planeP3` at `t = 21/2`. -/
theorem bvh_from_drops_objects_c2 :
    bvhFrom 2 [.plane planeP3, .plane planeP1, .plane planeP2] =
      some nodeC2 ∧
    (HObj.hit nodeC2 rayC2 (1/100) 100).map
      (fun h => (h.parameter, h.material)) = some (27/2, 1) ∧
    (worldHit [.plane planeP3, .plane planeP1, .plane planeP2] rayC2
      (1/100) 100).map (fun h => (h.parameter, h.material)) =
      some (21/2, 3) := by
  refine ⟨?_, ?_, ?_⟩
  · norm_num [bvhFrom, sortByKey, insertByKey, bbMinCoord,
      HObj.boundingBox, planeBoundingBox, planeP1, planeP2, planeP3,
      bvhNew, nodeC2, surroundingBox, Vec3.cmin, Vec3.cmax]
  · norm_num [HObj.hit, nodeC2, planeP1, rayC2, Ray.make,
      Ray.pointAtParameter, aabbHit, slabT0, slabT1, planeBoundingBox,
      surroundingBox, planeHit, Vec3.cmin, Vec3.cmax, Vec3.minElement,
      Vec3.maxElement, Vec3.reciprocal, Vec3.sub_def, Vec3.mul_def,
      Vec3.add_def, Vec3.smul, Vec3.nalgebraLt]
  · norm_num [worldHit, worldHitLoop, HObj.hit, planeP1, planeP2,
      planeP3, rayC2, Ray.make, Ray.pointAtParameter, planeHit,
      Vec3.reciprocal, Vec3.sub_def, Vec3.add_def, Vec3.smul]

end Renderama
